import Mathlib

/-!
Verification development for the scraper-benchmark repository.

Shallow embedding of the benchmark harness:
* `src/async-vs-sync-benchmark.py` — `SyncScraper` / `AsyncScraper`
  (scrape_url, worker_batch, benchmark, compile_results), `SystemMonitor.get_stats`,
  and the comparison arithmetic of `print_comparison`.
* `src/comprehensive-benchmark.py` — `ComprehensiveBenchmark`
  (scrape_url, worker_batch, the partition step and the metric block of
  `run_benchmark`), `SystemMonitor.get_stats`, and the comparison/recommendation
  arithmetic of `main`.

Modelling conventions:
* Python floats are modelled as `ℚ` (decimal literals taken at face value),
  Python ints as `ℤ`/`ℕ`.
* A Python dict with optional keys is modelled as a structure with `Option`
  fields; `none` means the key is absent.
* Divisions whose denominator is a runtime value are modelled through `pydiv` /
  `pyIntDiv` in the `Except String` monad, so that Python's `ZeroDivisionError`
  is representable; the random draws consumed by `random.uniform` /
  `random.random` / `random.randint` are supplied by an explicit environment
  (`Draw`), making every function a pure function of its inputs and draws.
-/

/-- Python float division `a / b`: raises ZeroDivisionError when `b == 0`. -/
def pydiv (a b : ℚ) : Except String ℚ :=
  if b = 0 then .error "ZeroDivisionError: float division by zero" else .ok (a / b)

/-- Python integer floor division `a // b`: raises ZeroDivisionError when `b == 0`;
Python's `//` on ints is floor division, i.e. `Int.fdiv`. -/
def pyIntDiv (a b : ℤ) : Except String ℤ :=
  if b = 0 then .error "ZeroDivisionError: integer division or modulo by zero"
  else .ok (a.fdiv b)

/-- Python list slice `l[a:b]` restricted to the non-negative indices that occur
in this code base (all slice bounds produced by the partition loops are ≥ 0):
indices are clamped to the list length. -/
def pySlice {α : Type} (l : List α) (a b : ℤ) : List α :=
  (l.take b.toNat).drop a.toNat

/-- Outcome kind: the `status` field of a result dict is exactly the string
`success` or the string `failed`. -/
inductive Status where
  | success
  | failed
deriving DecidableEq, Repr

/-- The partition step shared verbatim by `SyncScraper.benchmark`
(src/async-vs-sync-benchmark.py lines 188–199) and
`ComprehensiveBenchmark.run_benchmark` (src/comprehensive-benchmark.py lines
261–273):
`urls_per_worker = len(urls) // num_workers`, then for `i in range(num_workers)`
the slice `urls[i*urls_per_worker : (i+1)*urls_per_worker]`, with the last
worker's end index replaced by `len(urls)`. Returns the list of
`(worker_urls, i)` pairs. -/
def divide_urls (urls : List String) (num_workers : ℤ) :
    Except String (List (List String × ℤ)) := do
  let urls_per_worker ← pyIntDiv urls.length num_workers
  pure ((List.range num_workers.toNat).map (fun (i : ℕ) =>
    let start_idx : ℤ := (i : ℤ) * urls_per_worker
    let end_idx : ℤ :=
      if (i : ℤ) = num_workers - 1 then urls.length else start_idx + urls_per_worker
    (pySlice urls start_idx end_idx, (i : ℤ))))

/-- Normal form of the i-th slice produced by `divide_urls` for a positive
worker count, with `q = len urls // num_workers`: the last worker's slice runs
to the end of the list, every other worker's slice takes `q` items. -/
def natSlice (l : List String) (q W i : ℕ) : List String :=
  if i = W - 1 then l.drop (i * q) else (l.drop (i * q)).take q

/-- The `max_workers` validation performed by the
`ThreadPoolExecutor(max_workers=...)` construction (CPython
`concurrent.futures.thread`): raises `ValueError` when `max_workers <= 0`.
Executed by `SyncScraper.benchmark` (src/async-vs-sync-benchmark.py line 204)
with `max_workers = num_workers`, and by `ComprehensiveBenchmark.run_benchmark`
(src/comprehensive-benchmark.py lines 283–284) with
`max_workers = min(num_workers, 20)`, which is likewise `≤ 0` exactly when
`num_workers ≤ 0`. -/
def threadPoolExecutorCheck (max_workers : ℤ) : Except String Unit :=
  if max_workers ≤ 0 then .error "ValueError: max_workers must be greater than 0"
  else .ok ()

namespace AsyncVsSync

/-- One result dict of `SyncScraper.scrape_url` / `AsyncScraper.scrape_url`
(src/async-vs-sync-benchmark.py lines 133–164 and 258–290). `response_size` is
present only on the success path; `worker_id` is added by `worker_batch`. -/
structure Outcome where
  url : String
  status : Status
  response_time : ℚ
  response_size : Option ℕ
  worker_id : Option ℤ
deriving DecidableEq, Repr

/-- The random draws consumed by one call of `scrape_url`:
`delay = random.uniform(0.01, 0.03)`, `roll = random.random()`,
`elapsed = time.time() - start_time` measured on the success path, and
`size = random.randint(15000, 45000)`. -/
structure Draw where
  delay : ℚ
  roll : ℚ
  elapsed : ℚ
  size : ℕ
deriving DecidableEq, Repr

/-- `SyncScraper.scrape_url` (src/async-vs-sync-benchmark.py lines 133–164);
the body of `AsyncScraper.scrape_url` inside its `async with semaphore:` block
(lines 258–290) is identical. Fails iff `random.random() > 0.90`. -/
def scrape_url (url : String) (d : Draw) : Outcome :=
  if d.roll > 9/10 then
    { url := url, status := .failed, response_time := d.delay,
      response_size := none, worker_id := none }
  else
    { url := url, status := .success, response_time := d.elapsed,
      response_size := some d.size, worker_id := none }

/-- `SyncScraper.worker_batch` (src/async-vs-sync-benchmark.py lines 166–176):
scrapes the urls in order, stamping each result with `worker_id`. The draw
environment `env` supplies the random values for the i-th url of the batch. -/
def worker_batch (env : ℕ → Draw) (urls : List String) (worker_id : ℤ) :
    List Outcome :=
  urls.enum.map (fun p => { scrape_url p.2 (env p.1) with worker_id := some worker_id })

/-- One aggregated statistics dict of `SystemMonitor.get_stats`
(src/async-vs-sync-benchmark.py lines 79–94). -/
structure Stats where
  cpu_avg : ℚ
  cpu_max : ℚ
  cpu_min : ℚ
  memory_avg_gb : ℚ
  memory_max_gb : ℚ
  memory_min_gb : ℚ
  sample_count : ℕ
deriving DecidableEq, Repr

/-- One sample appended by the monitor loop (lines 51–69): the loop appends to
`cpu_samples` and `memory_samples` in lockstep, so one record carries both. -/
structure Sample where
  timestamp : ℚ
  cpu_percent : ℚ
  memory_used_gb : ℚ
deriving DecidableEq, Repr

/-- Python `max(l)` on a non-empty list (total here; the empty case is
unreachable in the embedded code paths). -/
def pymax : List ℚ → ℚ
  | [] => 0
  | x :: xs => xs.foldl max x

/-- Python `min(l)` on a non-empty list (total here; the empty case is
unreachable in the embedded code paths). -/
def pymin : List ℚ → ℚ
  | [] => 0
  | x :: xs => xs.foldl min x

/-- `SystemMonitor.get_stats` (src/async-vs-sync-benchmark.py lines 79–94):
returns the empty dict (`none`) when no samples were collected, otherwise
avg/max/min over the cpu and memory sample values plus the sample count. -/
def get_stats (samples : List Sample) : Option Stats :=
  match samples with
  | [] => none
  | s :: rest =>
    let cpu_values := (s :: rest).map (·.cpu_percent)
    let memory_values := (s :: rest).map (·.memory_used_gb)
    some { cpu_avg := cpu_values.sum / cpu_values.length
           cpu_max := pymax cpu_values
           cpu_min := pymin cpu_values
           memory_avg_gb := memory_values.sum / memory_values.length
           memory_max_gb := pymax memory_values
           memory_min_gb := pymin memory_values
           sample_count := (s :: rest).length }

/-- The result dict of `SyncScraper.compile_results`
(src/async-vs-sync-benchmark.py lines 236–246). -/
structure Compiled where
  method : String
  total_time : ℚ
  total_urls : ℕ
  successful : ℕ
  failed : ℕ
  success_rate : ℚ
  urls_per_second : ℚ
  avg_response_time : ℚ
  system_stats : Option Stats
deriving DecidableEq, Repr

/-- `SyncScraper.compile_results` (src/async-vs-sync-benchmark.py lines
225–246); `AsyncScraper.compile_results` (lines 329–350) is textually
identical. Every success carries a `response_time` key, so the comprehension
filter `if 'response_time' in r` keeps all successes. -/
def compile_results (results : List Outcome) (total_time : ℚ)
    (system_stats : Option Stats) (method_name : String) :
    Except String Compiled := do
  let successful := results.filter (fun r => decide (r.status = Status.success))
  let failed := results.filter (fun r => decide (r.status = Status.failed))
  let success_rate ← (if results ≠ [] then do
      let q ← pydiv successful.length results.length
      pure (q * 100)
    else pure 0)
  let urls_per_second ← (if total_time > 0 then
      pydiv successful.length total_time
    else pure 0)
  let response_times := successful.map (·.response_time)
  let avg_response_time ← (if response_times ≠ [] then
      pydiv response_times.sum response_times.length
    else pure 0)
  pure { method := method_name
         total_time := total_time
         total_urls := results.length
         successful := successful.length
         failed := failed.length
         success_rate := success_rate
         urls_per_second := urls_per_second
         avg_response_time := avg_response_time
         system_stats := system_stats }

/-- `SyncScraper.benchmark` (src/async-vs-sync-benchmark.py lines 178–222):
partition the urls, construct the thread pool
(`ThreadPoolExecutor(max_workers=num_workers)`, line 204, whose `max_workers`
validation raises `ValueError` for a non-positive worker count), run every
worker batch, concatenate the collected results and compile them.
`total_time` (wall clock) and `system_stats` (the monitor aggregate) are
measured externally and passed in. Collection order of worker results
(`as_completed`) does not affect any compiled metric, so results are
concatenated in worker order. -/
def benchmark (env : ℤ → ℕ → Draw) (urls : List String) (num_workers : ℤ)
    (total_time : ℚ) (system_stats : Option Stats) : Except String Compiled := do
  let worker_tasks ← divide_urls urls num_workers
  let _ ← threadPoolExecutorCheck num_workers
  let all_results :=
    (worker_tasks.map (fun task => worker_batch (env task.2) task.1 task.2)).flatten
  compile_results all_results total_time system_stats "Sync (Threading)"

end AsyncVsSync

/-- Recommendation tiers: the four branches of the recommendation if-chains in
`print_comparison` (src/async-vs-sync-benchmark.py lines 386–398) and in
`main` of src/comprehensive-benchmark.py (lines 590–602), by position. -/
inductive Tier where
  | strong
  | moderate
  | marginal
  | limited
deriving DecidableEq, Repr

namespace AsyncVsSync

/-- The comparison arithmetic of `print_comparison`
(src/async-vs-sync-benchmark.py line 363):
`speedup = sync.total_time / async.total_time if async.total_time > 0 else 0`.
The same formula is used for the saved `speedup` field in `main` (line 484). -/
def speedup (sync_results async_results : Compiled) : ℚ :=
  if async_results.total_time > 0 then
    sync_results.total_time / async_results.total_time
  else 0

/-- `print_comparison` line 366: `time_saved = sync.total_time - async.total_time`. -/
def time_saved (sync_results async_results : Compiled) : ℚ :=
  sync_results.total_time - async_results.total_time

/-- `print_comparison` line 373: throughput improvement percentage, `0` when the
sync rate is not positive. -/
def throughput_improvement (sync_results async_results : Compiled) : ℚ :=
  if sync_results.urls_per_second > 0 then
    (async_results.urls_per_second / sync_results.urls_per_second - 1) * 100
  else 0

/-- The recommendation if-chain of `print_comparison`
(src/async-vs-sync-benchmark.py lines 386–398): thresholds 3, 1.5, 1.1. -/
def recommendation (speedup : ℚ) : Tier :=
  if speedup > 3 then .strong
  else if speedup > 3/2 then .moderate
  else if speedup > 11/10 then .marginal
  else .limited

end AsyncVsSync

namespace Comprehensive

/-- One result dict of `ComprehensiveBenchmark.scrape_url`
(src/comprehensive-benchmark.py lines 166–214). On the failure path the dict
carries `reason` and `response_size: 0` but no `products_found`/`use_premium`;
on the success path it carries `response_size`, `products_found` and
`use_premium` but no `reason`. `worker_id` is added by `worker_batch`. -/
structure Outcome where
  url : String
  status : Status
  reason : Option String
  response_time : ℚ
  response_size : Option ℕ
  products_found : Option ℕ
  use_premium : Option Bool
  worker_id : Option ℤ
deriving DecidableEq, Repr

/-- The random draws consumed by one call of `scrape_url`: `delay` from
`random.uniform`, `roll = random.random()`, `rt_extra = random.uniform(0.02, 0.1)`,
`size = random.randint(15000, 45000)`, `products = random.randint(8, 25)`. -/
structure Draw where
  delay : ℚ
  roll : ℚ
  rt_extra : ℚ
  size : ℕ
  products : ℕ
deriving DecidableEq, Repr

/-- `ComprehensiveBenchmark.scrape_url` (src/comprehensive-benchmark.py lines
166–214): the simulated success rate is 0.95 in premium mode and 0.88 locally;
a draw with `roll > success_rate` fails with reason `rate_limit_simulation`
and `response_size` 0; otherwise the result is a success with
`response_time = delay + rt_extra`. -/
def scrape_url (url : String) (use_premium : Bool) (d : Draw) : Outcome :=
  let success_rate : ℚ := if use_premium then 95/100 else 88/100
  if d.roll > success_rate then
    { url := url, status := .failed, reason := some "rate_limit_simulation",
      response_time := d.delay, response_size := some 0, products_found := none,
      use_premium := none, worker_id := none }
  else
    { url := url, status := .success, reason := none,
      response_time := d.delay + d.rt_extra, response_size := some d.size,
      products_found := some d.products, use_premium := some use_premium,
      worker_id := none }

/-- `ComprehensiveBenchmark.worker_batch` (src/comprehensive-benchmark.py lines
216–239): scrapes the urls in order, stamping each result with `worker_id`
(the progress-bar and print statements have no effect on the returned list). -/
def worker_batch (env : ℕ → Draw) (urls : List String) (worker_id : ℤ)
    (use_premium : Bool) : List Outcome :=
  urls.enum.map
    (fun p => { scrape_url p.2 use_premium (env p.1) with worker_id := some worker_id })

/-- One sample appended by the comprehensive monitor loop
(src/comprehensive-benchmark.py lines 39–68): cpu, memory and network samples
are appended in lockstep, so one record carries all of them. -/
structure Sample where
  timestamp : ℚ
  cpu_percent : ℚ
  cpu_count : ℕ
  memory_used_gb : ℚ
  bytes_sent : ℚ
  bytes_recv : ℚ
deriving DecidableEq, Repr

/-- The aggregated statistics dict of the comprehensive `SystemMonitor.get_stats`
(src/comprehensive-benchmark.py lines 94–106). -/
structure Stats where
  cpu_avg : ℚ
  cpu_max : ℚ
  cpu_min : ℚ
  cpu_count : ℕ
  memory_avg_gb : ℚ
  memory_max_gb : ℚ
  memory_min_gb : ℚ
  network_sent_mb : ℚ
  network_recv_mb : ℚ
  sample_count : ℕ
  monitoring_duration : ℚ
deriving DecidableEq, Repr

/-- `SystemMonitor.get_stats` of src/comprehensive-benchmark.py (lines 78–106):
returns the empty dict (`none`) when no samples were collected; otherwise the
avg/max/min aggregation, the network byte deltas between the first and last
sample (0 when fewer than two samples), and the last timestamp. -/
def get_stats (samples : List Comprehensive.Sample) : Option Comprehensive.Stats :=
  match samples with
  | [] => none
  | s :: rest =>
    let all := s :: rest
    let cpu_values := all.map (·.cpu_percent)
    let memory_values := all.map (·.memory_used_gb)
    let last := all.getLast (by simp)
    let bytes_sent_delta : ℚ := if 2 ≤ all.length then last.bytes_sent - s.bytes_sent else 0
    let bytes_recv_delta : ℚ := if 2 ≤ all.length then last.bytes_recv - s.bytes_recv else 0
    some { cpu_avg := cpu_values.sum / cpu_values.length
           cpu_max := AsyncVsSync.pymax cpu_values
           cpu_min := AsyncVsSync.pymin cpu_values
           cpu_count := s.cpu_count
           memory_avg_gb := memory_values.sum / memory_values.length
           memory_max_gb := AsyncVsSync.pymax memory_values
           memory_min_gb := AsyncVsSync.pymin memory_values
           network_sent_mb := bytes_sent_delta / (1024 ^ 2)
           network_recv_mb := bytes_recv_delta / (1024 ^ 2)
           sample_count := all.length
           monitoring_duration := last.timestamp }

/-- The metric fields of the `benchmark_results` dict built by
`ComprehensiveBenchmark.run_benchmark` (src/comprehensive-benchmark.py lines
305–391) that are derived from the run data. -/
structure Metrics where
  total_time_seconds : ℚ
  total_time_minutes : ℚ
  urls_successful : ℕ
  urls_failed : ℕ
  success_rate_percent : ℚ
  urls_per_second : ℚ
  urls_per_minute : ℚ
  avg_response_time_seconds : ℚ
  total_data_transfer_mb : ℚ
  throughput_mbps : ℚ
  cpu_average_percent : ℚ
  memory_average_gb : ℚ
  memory_delta_gb : ℚ
  memory_efficiency_mb_per_url : ℚ
  network_efficiency_kb_per_url : ℚ
  urls_per_cpu_core_per_second : ℚ
  urls_per_gb_memory : ℚ
  cpu_seconds_per_url : ℚ
  wall_clock_efficiency : ℚ
  failure_rate_percent : ℚ
deriving DecidableEq, Repr

/-- The metric computation of `ComprehensiveBenchmark.run_benchmark`
(src/comprehensive-benchmark.py lines 305–391): aggregates the collected
per-item results into the performance / system-resource / efficiency metrics.
External measurements are passed in: `total_time` (wall clock), `stats`
(monitor aggregate, `none` for the empty dict), `cpu_count`
(`psutil.cpu_count()`, ≥ 1 on any machine the program can run on),
`memory_delta` and the two network deltas. Note that `success_rate` and the
failure rate divide by `len(urls)` while the per-result aggregations run over
`all_results`. -/
def run_metrics (all_results : List Outcome) (urls : List String) (total_time : ℚ)
    (stats : Option Comprehensive.Stats) (cpu_count : ℕ)
    (memory_delta network_sent_delta network_recv_delta : ℚ) :
    Except String Metrics := do
  let successful_results := all_results.filter (fun r => decide (r.status = Status.success))
  let failed_results := all_results.filter (fun r => decide (r.status = Status.failed))
  let total_successful := successful_results.length
  let total_failed := failed_results.length
  let success_rate ← (if urls ≠ [] then do
      let q ← pydiv total_successful urls.length
      pure (q * 100)
    else pure 0)
  let urls_per_second ← (if total_time > 0 then pydiv total_successful total_time else pure 0)
  let response_times := successful_results.map (·.response_time)
  let avg_response_time ← (if response_times ≠ [] then
      pydiv response_times.sum response_times.length
    else pure 0)
  let total_bytes : ℚ := (successful_results.map (fun r => ((r.response_size.getD 0 : ℕ) : ℚ))).sum
  let total_mb : ℚ := total_bytes / (1024 ^ 2)
  let throughput_mbps ← (if total_time > 0 then pydiv total_mb total_time else pure 0)
  let memory_efficiency ← (if 0 < total_successful then
      pydiv (memory_delta * 1024) total_successful
    else pure 0)
  let network_efficiency ← (if 0 < total_successful then
      pydiv ((network_sent_delta + network_recv_delta) * 1024) total_successful
    else pure 0)
  let urls_per_cpu_core ← (if urls_per_second > 0 then
      pydiv urls_per_second cpu_count
    else pure 0)
  let memory_avg_default_one : ℚ := (stats.map (·.memory_avg_gb)).getD 1
  let urls_per_gb ← (if memory_avg_default_one > 0 then
      pydiv total_successful memory_avg_default_one
    else pure 0)
  let cpu_avg : ℚ := (stats.map (·.cpu_avg)).getD 0
  let cpu_seconds ← (if 0 < total_successful then
      pydiv (cpu_avg / 100 * total_time) total_successful
    else pure 0)
  let wall_clock ← (if total_time > 0 then
      pydiv total_successful (total_time / 60)
    else pure 0)
  let failure_rate ← (if urls ≠ [] then do
      let q ← pydiv total_failed urls.length
      pure (q * 100)
    else pure 0)
  pure { total_time_seconds := total_time
         total_time_minutes := total_time / 60
         urls_successful := total_successful
         urls_failed := total_failed
         success_rate_percent := success_rate
         urls_per_second := urls_per_second
         urls_per_minute := urls_per_second * 60
         avg_response_time_seconds := avg_response_time
         total_data_transfer_mb := total_mb
         throughput_mbps := throughput_mbps
         cpu_average_percent := cpu_avg
         memory_average_gb := (stats.map (·.memory_avg_gb)).getD 0
         memory_delta_gb := memory_delta
         memory_efficiency_mb_per_url := memory_efficiency
         network_efficiency_kb_per_url := network_efficiency
         urls_per_cpu_core_per_second := urls_per_cpu_core
         urls_per_gb_memory := urls_per_gb
         cpu_seconds_per_url := cpu_seconds
         wall_clock_efficiency := wall_clock
         failure_rate_percent := failure_rate }

/-- The comparison arithmetic of `main` (src/comprehensive-benchmark.py line
540 and the `comparison` dict lines 614–621): speed improvement as ratio of
throughputs, `0` when the baseline throughput is not positive. -/
def speed_improvement (premium_perf local_perf : Metrics) : ℚ :=
  if local_perf.urls_per_second > 0 then
    premium_perf.urls_per_second / local_perf.urls_per_second
  else 0

/-- `main` line 553/617: success-rate delta in percentage points. -/
def success_rate_improvement (premium_perf local_perf : Metrics) : ℚ :=
  premium_perf.success_rate_percent - local_perf.success_rate_percent

/-- `main` line 564/618: CPU usage delta in percentage points. -/
def cpu_usage_delta (premium_perf local_perf : Metrics) : ℚ :=
  premium_perf.cpu_average_percent - local_perf.cpu_average_percent

/-- `main` line 567/619: memory usage delta in GB. -/
def memory_usage_delta (premium_perf local_perf : Metrics) : ℚ :=
  premium_perf.memory_average_gb - local_perf.memory_average_gb

/-- The recommendation if-chain of `main` (src/comprehensive-benchmark.py lines
590–602): thresholds 10, 5, 2. -/
def recommendation (speed_improvement : ℚ) : Tier :=
  if speed_improvement > 10 then .strong
  else if speed_improvement > 5 then .moderate
  else if speed_improvement > 2 then .marginal
  else .limited

end Comprehensive

namespace BoundedGate

/-!
Model of the bounded-concurrent strategy's gate discipline
(src/async-vs-sync-benchmark.py lines 258–307): `AsyncScraper.scrape_batch`
creates `semaphore = asyncio.Semaphore(concurrency)` and every
`AsyncScraper.scrape_url` runs its whole body inside `async with semaphore:`,
so the gate is acquired before any per-item work and released on every exit
path — normal success return, the simulated-failure return, and the
`except`-branch return alike. The asyncio event loop interleaves the tasks at
their suspension points; we model an execution as an arbitrary interleaving of
acquire and release steps over the task pool, with the counting-semaphore rule
that an acquire only fires while the counter is positive.
-/

/-- Phase of one per-item task with respect to the gate: not yet acquired,
holding the gate (in flight, i.e. between acquire and release), or finished
(gate released). -/
inductive Phase where
  | idle
  | holding
  | done
deriving DecidableEq, Repr

/-- The exit path a task takes out of the `async with` block: the success
return, the simulated-failure return, or a raised exception caught by the
`except` branch. The gate-release effect is identical for all three. -/
inductive ExitKind where
  | success
  | simFailure
  | raised
deriving DecidableEq, Repr

/-- Global state of one `scrape_batch` execution: the phase of every task and
the semaphore's available count. -/
structure GateState where
  phases : List Phase
  avail : ℕ
deriving DecidableEq, Repr

/-- One scheduler step: either some idle task acquires the gate (only possible
while the counter is positive), or some in-flight task exits — by any of the
three exit paths — and releases the gate. -/
inductive GateStep : GateState → GateState → Prop
  | acquire (s : GateState) (i : ℕ)
      (hi : s.phases[i]? = some Phase.idle) (ha : 0 < s.avail) :
      GateStep s ⟨s.phases.set i Phase.holding, s.avail - 1⟩
  | release (s : GateState) (i : ℕ) (k : ExitKind)
      (hi : s.phases[i]? = some Phase.holding) :
      GateStep s ⟨s.phases.set i Phase.done, s.avail + 1⟩

/-- Initial state of a batch of `n` tasks under a gate of size `K`
(`asyncio.Semaphore(concurrency)`): no task started, full counter. -/
def initState (n K : ℕ) : GateState :=
  ⟨List.replicate n Phase.idle, K⟩

/-- Number of tasks currently in flight (between gate acquire and release). -/
def inFlight (s : GateState) : ℕ :=
  s.phases.count Phase.holding

/-- Reachability of a state from the start of a batch by scheduler steps. -/
def Reaches (n K : ℕ) (s : GateState) : Prop :=
  Relation.ReflTransGen GateStep (initState n K) s

lemma count_set_of_getElem? {l : List Phase} {i : ℕ} {y : Phase} (x p : Phase)
    (h : l[i]? = some y) :
    (l.set i x).count p + (if y = p then 1 else 0)
      = l.count p + (if x = p then 1 else 0) := by
  induction l generalizing i with
  | nil => simp at h
  | cons a t ih =>
    cases i with
    | zero =>
      simp only [List.getElem?_cons_zero, Option.some.injEq] at h
      subst h
      simp only [List.set_cons_zero, List.count_cons, beq_iff_eq]
      omega
    | succ j =>
      simp only [List.getElem?_cons_succ] at h
      have := ih (i := j) h
      simp only [List.set_cons_succ, List.count_cons, beq_iff_eq]
      omega

/-- The counting-semaphore invariant: in-flight tasks plus the available count
always equal the gate size. -/
lemma reaches_invariant {n K : ℕ} {s : GateState} (h : Reaches n K s) :
    inFlight s + s.avail = K := by
  induction h with
  | refl =>
    simp [inFlight, initState, List.count_replicate]
  | tail _ hstep ih =>
    cases hstep with
    | acquire i hi ha =>
      have hc := count_set_of_getElem? (i := i) Phase.holding Phase.holding hi
      rw [if_neg (by decide), if_pos rfl] at hc
      simp only [inFlight] at ih ⊢
      omega
    | release i k hi =>
      have hc := count_set_of_getElem? (i := i) Phase.done Phase.holding hi
      rw [if_pos rfl, if_neg (by decide)] at hc
      simp only [inFlight] at ih ⊢
      omega

end BoundedGate

/-! ## Helper lemmas -/

lemma pydiv_ok {a b : ℚ} (h : b ≠ 0) : pydiv a b = .ok (a / b) := by
  simp [pydiv, h]

lemma exbind_ok {α β : Type} (v : α) (f : α → Except String β) :
    (Except.ok v >>= f) = f v := rfl

lemma expure_bind {α β : Type} (v : α) (f : α → Except String β) :
    ((pure v : Except String α) >>= f) = f v := rfl

lemma guard_div (c : Prop) [Decidable c] (a b : ℚ) (h : c → b ≠ 0) :
    ((if c then pydiv a b else pure 0) : Except String ℚ)
      = .ok (if c then a / b else 0) := by
  split_ifs with hc
  · exact pydiv_ok (h hc)
  · rfl

lemma guard_div_mul (c : Prop) [Decidable c] (a b m : ℚ) (h : c → b ≠ 0) :
    ((if c then do
        let q ← pydiv a b
        pure (q * m)
      else pure 0) : Except String ℚ)
      = .ok (if c then a / b * m else 0) := by
  split_ifs with hc
  · rw [pydiv_ok (h hc)]; rfl
  · rfl

lemma length_cast_ne_zero {α : Type} {l : List α} (h : l ≠ []) :
    ((l.length : ℚ)) ≠ 0 := by
  have : l.length ≠ 0 := by simpa [List.length_eq_zero] using h
  exact_mod_cast this

lemma divide_urls_eq (urls : List String) (W : ℕ) (hW : 1 ≤ W) :
    divide_urls urls (W : ℤ) = .ok ((List.range W).map (fun i =>
      (natSlice urls (urls.length / W) W i, (i : ℤ)))) := by
  have hWz : (W : ℤ) ≠ 0 := by exact_mod_cast Nat.one_le_iff_ne_zero.mp hW
  unfold divide_urls pyIntDiv
  rw [if_neg hWz]
  rw [exbind_ok]
  have htn : ((W : ℤ)).toNat = W := rfl
  rw [htn]
  congr 1
  apply List.map_congr_left
  intro i hi
  have hi' : i < W := List.mem_range.mp hi
  rw [← Int.ofNat_fdiv]
  dsimp only
  have hcond : ((i : ℤ) = (W : ℤ) - 1) ↔ (i = W - 1) := by omega
  have h2 : ((i : ℤ) * ((urls.length / W : ℕ) : ℤ)).toNat = i * (urls.length / W) := by
    rw [← Nat.cast_mul]; rfl
  rcases Decidable.em (i = W - 1) with he | he
  · rw [if_pos (hcond.mpr he)]
    simp only [natSlice, if_pos he, pySlice]
    have h1 : ((urls.length : ℤ)).toNat = urls.length := rfl
    rw [h1, h2, List.take_length]
  · rw [if_neg (fun hx => he (hcond.mp hx))]
    simp only [natSlice, if_neg he, pySlice]
    have h3 : ((i : ℤ) * ((urls.length / W : ℕ) : ℤ)
        + ((urls.length / W : ℕ) : ℤ)).toNat
        = i * (urls.length / W) + urls.length / W := by
      rw [← Nat.cast_mul, ← Nat.cast_add]; rfl
    rw [h2, h3, List.drop_take, Nat.add_sub_cancel_left]

lemma flatten_take_slices (l : List String) (q : ℕ) :
    ∀ k : ℕ, ((List.range k).map (fun i => (l.drop (i * q)).take q)).flatten
      = l.take (k * q) := by
  intro k
  induction k with
  | zero => simp
  | succ k ih =>
    rw [List.range_succ, List.map_append, List.flatten_append, ih]
    simp only [List.map_cons, List.map_nil, List.flatten_cons, List.flatten_nil,
      List.append_nil]
    rw [Nat.succ_mul, List.take_add]

lemma natSlice_flatten (l : List String) (W : ℕ) (hW : 1 ≤ W) :
    ((List.range W).map (natSlice l (l.length / W) W)).flatten = l := by
  obtain ⟨V, rfl⟩ : ∃ V, W = V + 1 := ⟨W - 1, by omega⟩
  rw [List.range_succ, List.map_append, List.flatten_append]
  have hlast : natSlice l (l.length / (V + 1)) (V + 1) V
      = l.drop (V * (l.length / (V + 1))) := by
    simp [natSlice]
  have hreg : (List.range V).map (natSlice l (l.length / (V + 1)) (V + 1))
      = (List.range V).map (fun i => (l.drop (i * (l.length / (V + 1)))).take
        (l.length / (V + 1))) := by
    apply List.map_congr_left
    intro i hi
    have : i < V := List.mem_range.mp hi
    simp [natSlice, Nat.ne_of_lt this]
  rw [hreg, flatten_take_slices]
  simp only [List.map_cons, List.map_nil, List.flatten_cons, List.flatten_nil,
    List.append_nil]
  rw [hlast]
  exact List.take_append_drop _ _

lemma natSlice_length (l : List String) (W : ℕ) {i : ℕ} (hi : i < W) :
    (natSlice l (l.length / W) W i).length
      = if i = W - 1 then l.length - (W - 1) * (l.length / W) else l.length / W := by
  rcases Decidable.em (i = W - 1) with he | he
  · subst he
    simp [natSlice, List.length_drop]
  · rw [natSlice, if_neg he, if_neg he]
    rw [List.length_take, List.length_drop]
    have hq : (i + 1) * (l.length / W) ≤ l.length := by
      calc (i + 1) * (l.length / W) ≤ W * (l.length / W) := by
            apply Nat.mul_le_mul_right
            omega
        _ = l.length / W * W := Nat.mul_comm _ _
        _ ≤ l.length := Nat.div_mul_le_self _ _
    have : i * (l.length / W) + l.length / W ≤ l.length := by
      have := hq
      rw [Nat.succ_mul] at this
      exact this
    omega

lemma foldl_max_mem (xs : List ℚ) (acc : ℚ) :
    xs.foldl max acc = acc ∨ xs.foldl max acc ∈ xs := by
  induction xs generalizing acc with
  | nil => left; rfl
  | cons a t ih =>
    simp only [List.foldl_cons]
    rcases ih (max acc a) with h | h
    · rw [h]
      rcases max_choice acc a with hm | hm
      · left; exact hm
      · right; rw [hm]; exact List.mem_cons_self a t
    · right; exact List.mem_cons_of_mem a h

lemma le_foldl_max (xs : List ℚ) (acc : ℚ) :
    acc ≤ xs.foldl max acc ∧ ∀ y ∈ xs, y ≤ xs.foldl max acc := by
  induction xs generalizing acc with
  | nil => exact ⟨le_refl _, by simp⟩
  | cons a t ih =>
    simp only [List.foldl_cons]
    obtain ⟨h1, h2⟩ := ih (max acc a)
    refine ⟨le_trans (le_max_left _ _) h1, ?_⟩
    intro y hy
    rcases List.mem_cons.mp hy with rfl | hy
    · exact le_trans (le_max_right _ _) h1
    · exact h2 y hy

lemma foldl_min_mem (xs : List ℚ) (acc : ℚ) :
    xs.foldl min acc = acc ∨ xs.foldl min acc ∈ xs := by
  induction xs generalizing acc with
  | nil => left; rfl
  | cons a t ih =>
    simp only [List.foldl_cons]
    rcases ih (min acc a) with h | h
    · rw [h]
      rcases min_choice acc a with hm | hm
      · left; exact hm
      · right; rw [hm]; exact List.mem_cons_self a t
    · right; exact List.mem_cons_of_mem a h

lemma foldl_min_le (xs : List ℚ) (acc : ℚ) :
    xs.foldl min acc ≤ acc ∧ ∀ y ∈ xs, xs.foldl min acc ≤ y := by
  induction xs generalizing acc with
  | nil => exact ⟨le_refl _, by simp⟩
  | cons a t ih =>
    simp only [List.foldl_cons]
    obtain ⟨h1, h2⟩ := ih (min acc a)
    refine ⟨le_trans h1 (min_le_left _ _), ?_⟩
    intro y hy
    rcases List.mem_cons.mp hy with rfl | hy
    · exact le_trans h1 (min_le_right _ _)
    · exact h2 y hy

lemma pymax_mem (x : ℚ) (xs : List ℚ) :
    AsyncVsSync.pymax (x :: xs) ∈ x :: xs := by
  rcases foldl_max_mem xs x with h | h
  · rw [AsyncVsSync.pymax, h]; exact List.mem_cons_self x xs
  · exact List.mem_cons_of_mem x h

lemma le_pymax (x : ℚ) (xs : List ℚ) :
    ∀ y ∈ x :: xs, y ≤ AsyncVsSync.pymax (x :: xs) := by
  intro y hy
  obtain ⟨h1, h2⟩ := le_foldl_max xs x
  rcases List.mem_cons.mp hy with rfl | hy
  · exact h1
  · exact h2 y hy

lemma pymin_mem (x : ℚ) (xs : List ℚ) :
    AsyncVsSync.pymin (x :: xs) ∈ x :: xs := by
  rcases foldl_min_mem xs x with h | h
  · rw [AsyncVsSync.pymin, h]; exact List.mem_cons_self x xs
  · exact List.mem_cons_of_mem x h

lemma pymin_le (x : ℚ) (xs : List ℚ) :
    ∀ y ∈ x :: xs, AsyncVsSync.pymin (x :: xs) ≤ y := by
  intro y hy
  obtain ⟨h1, h2⟩ := foldl_min_le xs x
  rcases List.mem_cons.mp hy with rfl | hy
  · exact h1
  · exact h2 y hy

lemma length_filter_status {α : Type} (st : α → Status) (l : List α) :
    (l.filter (fun r => decide (st r = Status.success))).length
      + (l.filter (fun r => decide (st r = Status.failed))).length = l.length := by
  induction l with
  | nil => rfl
  | cons a t ih =>
    cases h : st a <;> simp [List.filter_cons, h] <;> omega

lemma compile_results_eq (results : List AsyncVsSync.Outcome) (t : ℚ)
    (st : Option AsyncVsSync.Stats) (nm : String) :
    AsyncVsSync.compile_results results t st nm = .ok
      { method := nm
        total_time := t
        total_urls := results.length
        successful := (results.filter (fun r => decide (r.status = Status.success))).length
        failed := (results.filter (fun r => decide (r.status = Status.failed))).length
        success_rate := if results ≠ [] then
            (((results.filter (fun r => decide (r.status = Status.success))).length : ℚ)
              / (results.length : ℚ)) * 100
          else 0
        urls_per_second := if t > 0 then
            (((results.filter (fun r => decide (r.status = Status.success))).length : ℚ) / t)
          else 0
        avg_response_time := if ((results.filter
              (fun r => decide (r.status = Status.success))).map (·.response_time)) ≠ [] then
            ((results.filter (fun r => decide (r.status = Status.success))).map
                (·.response_time)).sum
              / (((results.filter (fun r => decide (r.status = Status.success))).map
                (·.response_time)).length : ℚ)
          else 0
        system_stats := st } := by
  unfold AsyncVsSync.compile_results
  dsimp only
  rw [guard_div_mul (results ≠ []) _ _ _ (fun h => length_cast_ne_zero h)]
  simp only [exbind_ok]
  rw [guard_div (t > 0) _ t (fun h => ne_of_gt h)]
  simp only [exbind_ok]
  rw [guard_div _ _ _ (fun h => length_cast_ne_zero h)]
  simp only [exbind_ok]
  rfl

lemma worker_batch_length (env : ℕ → AsyncVsSync.Draw) (urls : List String) (wid : ℤ) :
    (AsyncVsSync.worker_batch env urls wid).length = urls.length := by
  simp [AsyncVsSync.worker_batch, List.enum_length]

/-! ## Claims -/

/-- Claim C2: for every item list (length `N ≥ 0`) and every worker count
`W ≥ 1` the partition step produces exactly `W` contiguous slices whose
concatenation in worker order is exactly the input list — hence the slices are
pairwise disjoint position-wise and union-complete, every item assigned to
exactly one worker — each of the first `W - 1` slices having length `N / W`
(integer division) and the last slice absorbing the remainder
`N - (W - 1) * (N / W)`. -/
theorem divide_urls_partition_correct (urls : List String) (W : ℕ) (hW : 1 ≤ W) :
    ∃ tasks : List (List String × ℤ),
      divide_urls urls (W : ℤ) = .ok tasks
      ∧ tasks.length = W
      ∧ (tasks.map Prod.fst).flatten = urls
      ∧ tasks.map (fun task => task.fst.length)
          = (List.range W).map (fun i =>
              if i = W - 1 then urls.length - (W - 1) * (urls.length / W)
              else urls.length / W) := by
  refine ⟨_, divide_urls_eq urls W hW, ?_, ?_, ?_⟩
  · simp
  · rw [List.map_map]
    have hcomp : (Prod.fst ∘ fun i => (natSlice urls (urls.length / W) W i, (i : ℤ)))
        = natSlice urls (urls.length / W) W := rfl
    rw [hcomp]
    exact natSlice_flatten urls W hW
  · rw [List.map_map]
    apply List.map_congr_left
    intro i hi
    exact natSlice_length urls W (List.mem_range.mp hi)

/-- Concrete instance of claim C2: three urls split across two workers. -/
theorem divide_urls_partition_correct_witness :
    (1 : ℕ) ≤ 2 ∧ ∃ tasks : List (List String × ℤ),
      divide_urls ["a", "b", "c"] ((2 : ℕ) : ℤ) = .ok tasks
      ∧ tasks.length = 2
      ∧ (tasks.map Prod.fst).flatten = ["a", "b", "c"]
      ∧ tasks.map (fun task => task.fst.length)
          = (List.range 2).map (fun i =>
              if i = 2 - 1 then
                (["a", "b", "c"] : List String).length
                  - (2 - 1) * ((["a", "b", "c"] : List String).length / 2)
              else (["a", "b", "c"] : List String).length / 2) :=
  ⟨by norm_num, divide_urls_partition_correct ["a", "b", "c"] 2 (by norm_num)⟩

/-- Claim C1: for every completed run of the sync benchmark (all worker
futures collected and results compiled) the number of success outcomes plus
the number of failure outcomes equals the total number of input items, and
that total equals the length of the input list: every item yields exactly one
terminal outcome, none dropped and none duplicated. -/
theorem sync_run_outcome_conservation (env : ℤ → ℕ → AsyncVsSync.Draw)
    (urls : List String) (W : ℕ) (t : ℚ) (st : Option AsyncVsSync.Stats)
    (hW : 1 ≤ W) :
    ∃ r : AsyncVsSync.Compiled,
      AsyncVsSync.benchmark env urls (W : ℤ) t st = .ok r
      ∧ r.successful + r.failed = r.total_urls
      ∧ r.total_urls = urls.length := by
  unfold AsyncVsSync.benchmark
  rw [divide_urls_eq urls W hW]
  simp only [exbind_ok]
  rw [show threadPoolExecutorCheck (W : ℤ) = Except.ok () from by
    rw [threadPoolExecutorCheck, if_neg (by omega)]]
  simp only [exbind_ok]
  rw [compile_results_eq]
  refine ⟨_, rfl, ?_, ?_⟩
  · exact length_filter_status (fun r : AsyncVsSync.Outcome => r.status) _
  · show (((List.range W).map
        (fun i => (natSlice urls (urls.length / W) W i, (i : ℤ)))).map
        (fun task => AsyncVsSync.worker_batch (env task.2) task.1 task.2)).flatten.length
      = urls.length
    rw [List.length_flatten, List.map_map]
    have hlen := congrArg List.length (natSlice_flatten urls W hW)
    rw [List.length_flatten, List.map_map] at hlen
    refine Eq.trans ?_ hlen
    apply congrArg
    rw [List.map_map]
    apply List.map_congr_left
    intro i _
    exact worker_batch_length _ _ _

/-- Concrete instance of claim C1: three urls, two workers, a fixed draw. -/
theorem sync_run_outcome_conservation_witness :
    (1 : ℕ) ≤ 2 ∧ ∃ r : AsyncVsSync.Compiled,
      AsyncVsSync.benchmark (fun _ _ => ⟨1/50, 1/2, 1/50, 20000⟩)
          ["a", "b", "c"] ((2 : ℕ) : ℤ) 1 none = .ok r
      ∧ r.successful + r.failed = r.total_urls
      ∧ r.total_urls = (["a", "b", "c"] : List String).length :=
  ⟨by norm_num, sync_run_outcome_conservation (fun _ _ => ⟨1/50, 1/2, 1/50, 20000⟩)
    ["a", "b", "c"] 2 1 none (by norm_num)⟩

/-- Claim C9: result compilation is a deterministic pure aggregation of its
sealed inputs — applying it twice to the same outcome list, total time, system
stats and method name yields identical metrics, and since it depends only on
the multiset of outcomes (it is invariant under any reordering of the
collected outcome list), it is a function of the sealed outcome set; the
embedding is functional, reflecting that the source builds only fresh lists
and never mutates its arguments. -/
theorem compile_results_pure_aggregation (res res2 : List AsyncVsSync.Outcome)
    (t : ℚ) (st : Option AsyncVsSync.Stats) (nm : String) (hperm : res.Perm res2) :
    AsyncVsSync.compile_results res t st nm = AsyncVsSync.compile_results res2 t st nm
    ∧ AsyncVsSync.compile_results res t st nm = AsyncVsSync.compile_results res t st nm := by
  refine ⟨?_, rfl⟩
  rw [compile_results_eq, compile_results_eq]
  have hlen : res.length = res2.length := hperm.length_eq
  have hfs := hperm.filter (fun r => decide (r.status = Status.success))
  have hff := hperm.filter (fun r => decide (r.status = Status.failed))
  have hlen_s := hfs.length_eq
  have hlen_f := hff.length_eq
  have hmap := hfs.map (·.response_time)
  have hsum := hmap.sum_eq
  have hlen_rt := hmap.length_eq
  have hn : (res ≠ []) = (res2 ≠ []) := by
    have : (res = []) ↔ (res2 = []) := by
      rw [← List.length_eq_zero, ← List.length_eq_zero, hlen]
    exact propext (not_congr this)
  have hnrt : (((res.filter (fun r => decide (r.status = Status.success))).map
        (·.response_time)) ≠ [])
      = (((res2.filter (fun r => decide (r.status = Status.success))).map
        (·.response_time)) ≠ []) := by
    have : (((res.filter (fun r => decide (r.status = Status.success))).map
          (·.response_time)) = [])
        ↔ (((res2.filter (fun r => decide (r.status = Status.success))).map
          (·.response_time)) = []) := by
      rw [← List.length_eq_zero, ← List.length_eq_zero, hlen_rt]
    exact propext (not_congr this)
  simp only [hn, hnrt, hlen, hlen_s, hlen_f, hsum, hlen_rt]

/-- Concrete instance of claim C9: two outcomes aggregated in both orders. -/
theorem compile_results_pure_aggregation_witness :
    AsyncVsSync.compile_results
        [⟨"a", Status.success, 1/10, some 100, some 0⟩,
         ⟨"b", Status.failed, 1/5, none, some 1⟩] 1 none "Sync (Threading)"
      = AsyncVsSync.compile_results
        [⟨"b", Status.failed, 1/5, none, some 1⟩,
         ⟨"a", Status.success, 1/10, some 100, some 0⟩] 1 none "Sync (Threading)"
    ∧ AsyncVsSync.compile_results
        [⟨"a", Status.success, 1/10, some 100, some 0⟩,
         ⟨"b", Status.failed, 1/5, none, some 1⟩] 1 none "Sync (Threading)"
      = AsyncVsSync.compile_results
        [⟨"a", Status.success, 1/10, some 100, some 0⟩,
         ⟨"b", Status.failed, 1/5, none, some 1⟩] 1 none "Sync (Threading)" :=
  compile_results_pure_aggregation
    [⟨"a", Status.success, 1/10, some 100, some 0⟩,
     ⟨"b", Status.failed, 1/5, none, some 1⟩]
    [⟨"b", Status.failed, 1/5, none, some 1⟩,
     ⟨"a", Status.success, 1/10, some 100, some 0⟩] 1 none "Sync (Threading)"
    (List.Perm.swap _ _ [])

lemma avg_mul_len {α : Type} (f : α → ℚ) (s : α) (rest : List α) :
    (((s :: rest).map f).sum / (((s :: rest).map f).length : ℚ))
        * (((s :: rest).length : ℕ) : ℚ)
      = ((s :: rest).map f).sum := by
  rw [List.length_map]
  have hnz : (((s :: rest).length : ℕ) : ℚ) ≠ 0 := by
    rw [List.length_cons]
    exact_mod_cast Nat.succ_ne_zero rest.length
  exact div_mul_cancel₀ _ hnz

/-- Claim C8: `get_stats` on a monitor that collected zero samples returns the
explicit empty no-data result (the empty dict, `none` here) without performing
any division, and on at least one sample returns a pure aggregation whose
`cpu_avg`/`memory_avg_gb` are the arithmetic means of the collected samples
(stated multiplicatively), whose max/min fields are members of the collected
sample values bounding them from above/below, together with the sample count.
Both monitors — src/async-vs-sync-benchmark.py lines 79–94 and
src/comprehensive-benchmark.py lines 78–106 — are covered. -/
theorem get_stats_aggregation :
    (AsyncVsSync.get_stats [] = none)
    ∧ (Comprehensive.get_stats [] = none)
    ∧ (∀ (s : AsyncVsSync.Sample) (rest : List AsyncVsSync.Sample),
        ∃ st : AsyncVsSync.Stats,
          AsyncVsSync.get_stats (s :: rest) = some st
          ∧ st.sample_count = (s :: rest).length
          ∧ st.cpu_avg * ((s :: rest).length : ℚ)
              = ((s :: rest).map (·.cpu_percent)).sum
          ∧ st.cpu_max ∈ (s :: rest).map (·.cpu_percent)
          ∧ (∀ y ∈ (s :: rest).map (·.cpu_percent), y ≤ st.cpu_max)
          ∧ st.cpu_min ∈ (s :: rest).map (·.cpu_percent)
          ∧ (∀ y ∈ (s :: rest).map (·.cpu_percent), st.cpu_min ≤ y)
          ∧ st.memory_avg_gb * ((s :: rest).length : ℚ)
              = ((s :: rest).map (·.memory_used_gb)).sum
          ∧ st.memory_max_gb ∈ (s :: rest).map (·.memory_used_gb)
          ∧ (∀ y ∈ (s :: rest).map (·.memory_used_gb), y ≤ st.memory_max_gb)
          ∧ st.memory_min_gb ∈ (s :: rest).map (·.memory_used_gb)
          ∧ (∀ y ∈ (s :: rest).map (·.memory_used_gb), st.memory_min_gb ≤ y))
    ∧ (∀ (s : Comprehensive.Sample) (rest : List Comprehensive.Sample),
        ∃ st : Comprehensive.Stats,
          Comprehensive.get_stats (s :: rest) = some st
          ∧ st.sample_count = (s :: rest).length
          ∧ st.cpu_avg * ((s :: rest).length : ℚ)
              = ((s :: rest).map (·.cpu_percent)).sum
          ∧ st.cpu_max ∈ (s :: rest).map (·.cpu_percent)
          ∧ (∀ y ∈ (s :: rest).map (·.cpu_percent), y ≤ st.cpu_max)
          ∧ st.cpu_min ∈ (s :: rest).map (·.cpu_percent)
          ∧ (∀ y ∈ (s :: rest).map (·.cpu_percent), st.cpu_min ≤ y)
          ∧ st.memory_avg_gb * ((s :: rest).length : ℚ)
              = ((s :: rest).map (·.memory_used_gb)).sum
          ∧ st.memory_max_gb ∈ (s :: rest).map (·.memory_used_gb)
          ∧ (∀ y ∈ (s :: rest).map (·.memory_used_gb), y ≤ st.memory_max_gb)
          ∧ st.memory_min_gb ∈ (s :: rest).map (·.memory_used_gb)
          ∧ (∀ y ∈ (s :: rest).map (·.memory_used_gb), st.memory_min_gb ≤ y)) := by
  refine ⟨rfl, rfl, ?_, ?_⟩
  · intro s rest
    refine ⟨_, rfl, rfl, avg_mul_len _ s rest, pymax_mem _ _, le_pymax _ _,
      pymin_mem _ _, pymin_le _ _, avg_mul_len _ s rest, pymax_mem _ _,
      le_pymax _ _, pymin_mem _ _, pymin_le _ _⟩
  · intro s rest
    refine ⟨_, rfl, rfl, avg_mul_len _ s rest, pymax_mem _ _, le_pymax _ _,
      pymin_mem _ _, pymin_le _ _, avg_mul_len _ s rest, pymax_mem _ _,
      le_pymax _ _, pymin_mem _ _, pymin_le _ _⟩

/-- Concrete instance of claim C8: two collected samples, bounds discharged at
the sample value 50. -/
theorem get_stats_aggregation_witness :
    ∃ st : AsyncVsSync.Stats,
      AsyncVsSync.get_stats [⟨0, 50, 2⟩, ⟨1, 70, 3⟩] = some st
      ∧ st.sample_count = 2
      ∧ (50 : ℚ) ≤ st.cpu_max
      ∧ st.cpu_min ≤ (50 : ℚ) := by
  obtain ⟨st, h1, h2, _, _, h5, _, h7, _⟩ :=
    get_stats_aggregation.2.2.1 ⟨0, 50, 2⟩ [⟨1, 70, 3⟩]
  exact ⟨st, h1, h2, h5 50 (by simp), h7 50 (by simp)⟩

/-- Claim C3: under the bounded-concurrent strategy with gate size `K ≥ 1`, in
every state reachable in any interleaved execution at most `K` per-item
operations are between gate acquire and gate release, and since release is a
single step that fires identically on every exit path (success, simulated
failure, raised exception) and only from the holding phase, every acquired
item releases exactly once; when a run has finished (all tasks done) the
counter is back at `K`, so repeated runs never leak gate capacity. -/
theorem bounded_gate_invariant (n K : ℕ) (s : BoundedGate.GateState) (_hK : 1 ≤ K)
    (h : BoundedGate.Reaches n K s) :
    BoundedGate.inFlight s ≤ K
    ∧ ((∀ p ∈ s.phases, p = BoundedGate.Phase.done) → s.avail = K) := by
  have inv := BoundedGate.reaches_invariant h
  refine ⟨by omega, ?_⟩
  intro hdone
  have h0 : BoundedGate.inFlight s = 0 := by
    rw [BoundedGate.inFlight, List.count_eq_zero]
    intro hm
    exact absurd (hdone _ hm) (by decide)
  omega

/-- Concrete instance of claim C3: two tasks through a gate of size one, one
exiting by the success path and one by a raised exception; the final state has
no task in flight and the full counter restored. -/
theorem bounded_gate_invariant_witness :
    BoundedGate.inFlight ⟨[BoundedGate.Phase.done, BoundedGate.Phase.done], 1⟩ ≤ 1
    ∧ ((∀ p ∈ (BoundedGate.GateState.mk
          [BoundedGate.Phase.done, BoundedGate.Phase.done] 1).phases,
          p = BoundedGate.Phase.done)
        → (BoundedGate.GateState.mk
            [BoundedGate.Phase.done, BoundedGate.Phase.done] 1).avail = 1) := by
  have t1 : BoundedGate.GateStep (BoundedGate.initState 2 1)
      ⟨[BoundedGate.Phase.holding, BoundedGate.Phase.idle], 0⟩ :=
    BoundedGate.GateStep.acquire _ 0 rfl (by decide)
  have t2 : BoundedGate.GateStep
      ⟨[BoundedGate.Phase.holding, BoundedGate.Phase.idle], 0⟩
      ⟨[BoundedGate.Phase.done, BoundedGate.Phase.idle], 1⟩ :=
    BoundedGate.GateStep.release _ 0 BoundedGate.ExitKind.success rfl
  have t3 : BoundedGate.GateStep
      ⟨[BoundedGate.Phase.done, BoundedGate.Phase.idle], 1⟩
      ⟨[BoundedGate.Phase.done, BoundedGate.Phase.holding], 0⟩ :=
    BoundedGate.GateStep.acquire _ 1 rfl (by decide)
  have t4 : BoundedGate.GateStep
      ⟨[BoundedGate.Phase.done, BoundedGate.Phase.holding], 0⟩
      ⟨[BoundedGate.Phase.done, BoundedGate.Phase.done], 1⟩ :=
    BoundedGate.GateStep.release _ 1 BoundedGate.ExitKind.raised rfl
  exact bounded_gate_invariant 2 1 _ (le_refl 1)
    (Relation.ReflTransGen.tail (Relation.ReflTransGen.tail
      (Relation.ReflTransGen.tail (Relation.ReflTransGen.single t1) t2) t3) t4)

/-- Claim C6 counterexample: a benchmark result whose measured duration is 0
compared with itself yields speedup 0, not 1.0, because the speedup guard
returns 0 whenever the candidate duration is not positive — so
`Compare(A, A) = 1.0` does not hold for every result `A`. -/
theorem self_compare_zero_duration_speedup :
    AsyncVsSync.speedup ⟨"m", 0, 0, 0, 0, 0, 0, 0, none⟩
        ⟨"m", 0, 0, 0, 0, 0, 0, 0, none⟩ ≠ 1 := by
  decide

/-- Claim C6 (amended): comparing a benchmark result with itself yields
speedup exactly 1.0 whenever its duration is positive (and 0 when its duration
is ≤ 0, by the guard), and zero deltas unconditionally — time saved 0,
throughput improvement 0, success-rate delta 0, CPU delta 0, memory delta 0;
in general speedup times the candidate duration recovers the baseline
duration whenever the candidate duration is positive, and speedup is 0 when
the candidate duration is ≤ 0. -/
theorem compare_self_identity (A : AsyncVsSync.Compiled) (M : Comprehensive.Metrics) :
    (A.total_time > 0 → AsyncVsSync.speedup A A = 1)
    ∧ (A.total_time ≤ 0 → AsyncVsSync.speedup A A = 0)
    ∧ AsyncVsSync.time_saved A A = 0
    ∧ AsyncVsSync.throughput_improvement A A = 0
    ∧ Comprehensive.success_rate_improvement M M = 0
    ∧ Comprehensive.cpu_usage_delta M M = 0
    ∧ Comprehensive.memory_usage_delta M M = 0
    ∧ (∀ B : AsyncVsSync.Compiled, 0 < B.total_time
        → AsyncVsSync.speedup A B * B.total_time = A.total_time)
    ∧ (∀ B : AsyncVsSync.Compiled, B.total_time ≤ 0
        → AsyncVsSync.speedup A B = 0) := by
  refine ⟨?_, ?_, ?_, ?_, ?_, ?_, ?_, ?_, ?_⟩
  · intro h
    rw [AsyncVsSync.speedup, if_pos h]
    exact div_self (ne_of_gt h)
  · intro h
    rw [AsyncVsSync.speedup, if_neg (not_lt.mpr h)]
  · simp [AsyncVsSync.time_saved]
  · rw [AsyncVsSync.throughput_improvement]
    split_ifs with h
    · rw [div_self (ne_of_gt h)]
      ring
    · rfl
  · simp [Comprehensive.success_rate_improvement]
  · simp [Comprehensive.cpu_usage_delta]
  · simp [Comprehensive.memory_usage_delta]
  · intro B hB
    rw [AsyncVsSync.speedup, if_pos hB, div_mul_cancel₀ _ (ne_of_gt hB)]
  · intro B hB
    rw [AsyncVsSync.speedup, if_neg (not_lt.mpr hB)]

/-- Concrete instance of claim C6 (amended): a result with duration 2 compared
with itself. -/
theorem compare_self_identity_witness :
    AsyncVsSync.speedup ⟨"m", 2, 10, 9, 1, 90, 9/2, 1/100, none⟩
        ⟨"m", 2, 10, 9, 1, 90, 9/2, 1/100, none⟩ = 1
    ∧ AsyncVsSync.time_saved ⟨"m", 2, 10, 9, 1, 90, 9/2, 1/100, none⟩
        ⟨"m", 2, 10, 9, 1, 90, 9/2, 1/100, none⟩ = 0
    ∧ Comprehensive.success_rate_improvement
        ⟨2, 1/30, 9, 1, 90, 9/2, 270, 1/100, 1/2, 1/4, 50, 2, 0, 0, 0, 1, 9/2, 1/100, 270, 10⟩
        ⟨2, 1/30, 9, 1, 90, 9/2, 270, 1/100, 1/2, 1/4, 50, 2, 0, 0, 0, 1, 9/2, 1/100, 270, 10⟩
      = 0 := by
  obtain ⟨h1, _, h3, _, h5, _⟩ := compare_self_identity
    ⟨"m", 2, 10, 9, 1, 90, 9/2, 1/100, none⟩
    ⟨2, 1/30, 9, 1, 90, 9/2, 270, 1/100, 1/2, 1/4, 50, 2, 0, 0, 0, 1, 9/2, 1/100, 270, 10⟩
  exact ⟨h1 (by norm_num), h3, h5⟩

/-- Claim C7 counterexample: the two recommendation call sites classify the
same non-negative speedup 4 into different tiers — strong at the
async-vs-sync site (threshold chain 3 / 1.5 / 1.1) but only marginal at the
comprehensive site (threshold chain 10 / 5 / 2) — so the classification is not
a single fixed ordered threshold set applied at every call site. -/
theorem recommendation_thresholds_differ :
    AsyncVsSync.recommendation 4 ≠ Comprehensive.recommendation 4 := by
  decide

/-- Claim C7 (amended): at each call site the recommendation classification is
a total function over all speedup values (in particular all non-negative ones
including 0), assigning exactly one tier via an ordered if-chain — but the
threshold boundaries are hardcoded per call site and differ: 10 / 5 / 2 in
src/comprehensive-benchmark.py and 3 / 1.5 / 1.1 in
src/async-vs-sync-benchmark.py (src/src/benchmark-s3.py performs no
classification at all). -/
theorem recommendation_tiers_per_site (s : ℚ) :
    ((Comprehensive.recommendation s = Tier.strong ↔ 10 < s)
      ∧ (Comprehensive.recommendation s = Tier.moderate ↔ 5 < s ∧ s ≤ 10)
      ∧ (Comprehensive.recommendation s = Tier.marginal ↔ 2 < s ∧ s ≤ 5)
      ∧ (Comprehensive.recommendation s = Tier.limited ↔ s ≤ 2))
    ∧ ((AsyncVsSync.recommendation s = Tier.strong ↔ 3 < s)
      ∧ (AsyncVsSync.recommendation s = Tier.moderate ↔ 3/2 < s ∧ s ≤ 3)
      ∧ (AsyncVsSync.recommendation s = Tier.marginal ↔ 11/10 < s ∧ s ≤ 3/2)
      ∧ (AsyncVsSync.recommendation s = Tier.limited ↔ s ≤ 11/10)) := by
  unfold Comprehensive.recommendation AsyncVsSync.recommendation
  split_ifs with h1 h2 h3 h4 h5 h6 <;>
    refine ⟨⟨?_, ?_, ?_, ?_⟩, ?_, ?_, ?_, ?_⟩ <;>
    simp_all <;>
    first
      | linarith
      | (constructor <;> linarith)
      | (intro h <;> linarith)

/-- Claim C4 counterexample: with the non-empty item list `["u"]` and worker
count `-1` (which is `≤ 0`), starting a run does fail before any item is
processed, but with the thread pool construction's
`ValueError: max_workers must be greater than 0` — not with an
`InvalidConfiguration` error, which does not exist anywhere in the code;
worker count 0 likewise fails, with the partition's `ZeroDivisionError`. -/
theorem invalid_configuration_not_raised :
    AsyncVsSync.benchmark (fun _ _ => ⟨1/50, 1/2, 1/50, 20000⟩) ["u"] (-1) 1 none
      = .error "ValueError: max_workers must be greater than 0"
    ∧ AsyncVsSync.benchmark (fun _ _ => ⟨1/50, 1/2, 1/50, 20000⟩) ["u"] 0 1 none
      = .error "ZeroDivisionError: integer division or modulo by zero"
    ∧ "ValueError: max_workers must be greater than 0" ≠ "InvalidConfiguration"
    ∧ "ZeroDivisionError: integer division or modulo by zero"
      ≠ "InvalidConfiguration" :=
  ⟨rfl, rfl, by decide, by decide⟩

/-- Claim C4 (amended): for every worker count `W ≤ 0` the run fails before
any item is processed, but never with an `InvalidConfiguration` error, which
does not exist in the code: for `W = 0` the partition's integer division
raises `ZeroDivisionError`, and for `W < 0` the partition produces zero
slices and the `ThreadPoolExecutor(max_workers=num_workers)` construction
then raises `ValueError: max_workers must be greater than 0`
(`ComprehensiveBenchmark.run_benchmark` behaves identically since
`min(num_workers, 20) ≤ 0` exactly when `num_workers ≤ 0`). For an empty item
list and `W ≥ 1` the partition step does not fail and returns `W` empty
slices, making the run trivially complete. -/
theorem partition_bad_config_behavior :
    (∀ (env : ℤ → ℕ → AsyncVsSync.Draw) (urls : List String) (t : ℚ)
        (st : Option AsyncVsSync.Stats),
      AsyncVsSync.benchmark env urls 0 t st
        = .error "ZeroDivisionError: integer division or modulo by zero")
    ∧ (∀ (env : ℤ → ℕ → AsyncVsSync.Draw) (urls : List String) (t : ℚ)
        (st : Option AsyncVsSync.Stats) (W : ℤ), W < 0 →
      AsyncVsSync.benchmark env urls W t st
        = .error "ValueError: max_workers must be greater than 0")
    ∧ (∀ W : ℕ, 1 ≤ W →
      divide_urls [] (W : ℤ)
        = .ok ((List.range W).map (fun (i : ℕ) => (([] : List String), (i : ℤ))))) := by
  refine ⟨?_, ?_, ?_⟩
  · intro env urls t st
    rfl
  · intro env urls t st W hW
    unfold AsyncVsSync.benchmark divide_urls pyIntDiv threadPoolExecutorCheck
    rw [if_neg (show W ≠ 0 by omega)]
    rw [exbind_ok, expure_bind]
    rw [if_pos (show W ≤ 0 by omega)]
    rfl
  · intro W hW
    rw [divide_urls_eq [] W hW]
    congr 1
    apply List.map_congr_left
    intro i _
    simp [natSlice]

/-- Concrete instances of claim C4 (amended): worker count 0 raises the
partition's ZeroDivisionError, worker count -2 raises the thread pool's
ValueError, and three workers over an empty list give three empty slices. -/
theorem partition_bad_config_behavior_witness :
    AsyncVsSync.benchmark (fun _ _ => ⟨1/50, 1/2, 1/50, 20000⟩) ["u"] 0 1 none
      = .error "ZeroDivisionError: integer division or modulo by zero"
    ∧ AsyncVsSync.benchmark (fun _ _ => ⟨1/50, 1/2, 1/50, 20000⟩) ["u"] (-2) 1 none
        = .error "ValueError: max_workers must be greater than 0"
    ∧ divide_urls [] ((3 : ℕ) : ℤ)
        = .ok ((List.range 3).map (fun (i : ℕ) => (([] : List String), (i : ℤ)))) :=
  ⟨partition_bad_config_behavior.1 _ ["u"] 1 none,
   partition_bad_config_behavior.2.1 _ ["u"] 1 none (-2) (by norm_num),
   partition_bad_config_behavior.2.2 3 (by norm_num)⟩

/-- Claim C5: every division performed by result aggregation is guarded and
yields 0 instead of raising when its denominator would be zero: the
aggregations always return a result (never a ZeroDivisionError), with success
rate 0 when there are zero results, throughput 0 when the duration is ≤ 0,
mean response time 0 when there are no successful outcomes, and the derived
efficiency metrics (per CPU core — `psutil.cpu_count() ≥ 1` on any machine the
program runs on — per GB memory, per successful URL) never dividing by zero;
in particular a run over 0 items completes without error with
`success_rate = 0` and `urls_per_second = 0`. -/
theorem aggregation_division_guards
    (res : List AsyncVsSync.Outcome) (t : ℚ) (st : Option AsyncVsSync.Stats)
    (nm : String)
    (cres : List Comprehensive.Outcome) (urls : List String) (ct : ℚ)
    (cst : Option Comprehensive.Stats) (cpu_count : ℕ)
    (memory_delta ns nr : ℚ)
    (env : ℤ → ℕ → AsyncVsSync.Draw) (W : ℕ) (t0 : ℚ)
    (st0 : Option AsyncVsSync.Stats)
    (hcpu : 1 ≤ cpu_count) (hW : 1 ≤ W) :
    (∃ c : AsyncVsSync.Compiled,
      AsyncVsSync.compile_results res t st nm = .ok c
      ∧ (res = [] → c.success_rate = 0)
      ∧ (t ≤ 0 → c.urls_per_second = 0)
      ∧ (res.filter (fun r => decide (r.status = Status.success)) = []
          → c.avg_response_time = 0))
    ∧ (∃ m : Comprehensive.Metrics,
      Comprehensive.run_metrics cres urls ct cst cpu_count memory_delta ns nr
        = .ok m
      ∧ (urls = [] → m.success_rate_percent = 0 ∧ m.failure_rate_percent = 0)
      ∧ (ct ≤ 0 → m.urls_per_second = 0 ∧ m.throughput_mbps = 0
          ∧ m.wall_clock_efficiency = 0)
      ∧ (cres.filter (fun r => decide (r.status = Status.success)) = []
          → m.avg_response_time_seconds = 0
            ∧ m.memory_efficiency_mb_per_url = 0
            ∧ m.network_efficiency_kb_per_url = 0
            ∧ m.cpu_seconds_per_url = 0))
    ∧ (∃ r : AsyncVsSync.Compiled,
      AsyncVsSync.benchmark env [] (W : ℤ) t0 st0 = .ok r
      ∧ r.success_rate = 0 ∧ r.urls_per_second = 0) := by
  refine ⟨?_, ?_, ?_⟩
  · rw [compile_results_eq]
    refine ⟨_, rfl, ?_, ?_, ?_⟩
    · intro h
      simp [h]
    · intro h
      show (if t > 0 then _ else 0) = 0
      rw [if_neg (not_lt.mpr h)]
    · intro h
      simp [h]
  · unfold Comprehensive.run_metrics
    dsimp only
    rw [guard_div_mul _ _ _ _ (fun h => length_cast_ne_zero h)]
    simp only [exbind_ok]
    rw [guard_div (ct > 0) _ ct (fun h => ne_of_gt h)]
    simp only [exbind_ok]
    rw [guard_div _ _ _ (fun h => length_cast_ne_zero h)]
    simp only [exbind_ok]
    rw [guard_div (ct > 0) _ ct (fun h => ne_of_gt h)]
    simp only [exbind_ok]
    rw [guard_div _ _ _ (fun h => Nat.cast_ne_zero.mpr (Nat.pos_iff_ne_zero.mp h))]
    simp only [exbind_ok]
    rw [guard_div _ _ _ (fun h => Nat.cast_ne_zero.mpr (Nat.pos_iff_ne_zero.mp h))]
    simp only [exbind_ok]
    rw [guard_div _ _ ((cpu_count : ℕ) : ℚ)
      (fun _ => Nat.cast_ne_zero.mpr (by omega))]
    simp only [exbind_ok]
    rw [guard_div _ _ _ (fun h => ne_of_gt h)]
    simp only [exbind_ok]
    rw [guard_div _ _ _ (fun h => Nat.cast_ne_zero.mpr (Nat.pos_iff_ne_zero.mp h))]
    simp only [exbind_ok]
    rw [guard_div (ct > 0) _ (ct / 60)
      (fun h => div_ne_zero (ne_of_gt h) (by norm_num))]
    simp only [exbind_ok]
    rw [guard_div_mul _ _ _ _ (fun h => length_cast_ne_zero h)]
    simp only [exbind_ok]
    refine ⟨_, rfl, ?_, ?_, ?_⟩
    · intro h
      constructor <;> simp [h]
    · intro h
      refine ⟨?_, ?_, ?_⟩ <;>
        · show (if ct > 0 then _ else 0) = 0
          rw [if_neg (not_lt.mpr h)]
    · intro h
      refine ⟨?_, ?_, ?_, ?_⟩
      · simp [h]
      · show (if 0 < (cres.filter
            (fun r => decide (r.status = Status.success))).length then _ else 0) = 0
        rw [if_neg (by simp [h])]
      · show (if 0 < (cres.filter
            (fun r => decide (r.status = Status.success))).length then _ else 0) = 0
        rw [if_neg (by simp [h])]
      · show (if 0 < (cres.filter
            (fun r => decide (r.status = Status.success))).length then _ else 0) = 0
        rw [if_neg (by simp [h])]
  · unfold AsyncVsSync.benchmark
    rw [divide_urls_eq [] W hW]
    simp only [exbind_ok]
    rw [show threadPoolExecutorCheck (W : ℤ) = Except.ok () from by
      rw [threadPoolExecutorCheck, if_neg (by omega)]]
    simp only [exbind_ok]
    have hall : (((List.range W).map
        (fun i => (natSlice [] (List.length ([] : List String) / W) W i, (i : ℤ)))).map
        (fun task => AsyncVsSync.worker_batch (env task.2) task.1 task.2)).flatten
        = ([] : List AsyncVsSync.Outcome) := by
      rw [List.flatten_eq_nil_iff]
      intro l hl
      obtain ⟨task, htask, rfl⟩ := List.mem_map.mp hl
      obtain ⟨i, _, rfl⟩ := List.mem_map.mp htask
      simp [AsyncVsSync.worker_batch, natSlice]
    rw [hall, compile_results_eq]
    refine ⟨_, rfl, ?_, ?_⟩
    · simp
    · show (if t0 > 0 then _ else 0) = 0
      split_ifs
      · simp
      · rfl

/-- Concrete instance of claim C5: empty outcome lists, an empty url list, a
cpu count of 4 and two workers. -/
theorem aggregation_division_guards_witness :
    (∃ c : AsyncVsSync.Compiled,
      AsyncVsSync.compile_results [] 1 none "m" = .ok c
      ∧ (([] : List AsyncVsSync.Outcome) = [] → c.success_rate = 0)
      ∧ ((1 : ℚ) ≤ 0 → c.urls_per_second = 0)
      ∧ (([] : List AsyncVsSync.Outcome).filter
            (fun r => decide (r.status = Status.success)) = []
          → c.avg_response_time = 0))
    ∧ (∃ m : Comprehensive.Metrics,
      Comprehensive.run_metrics [] [] 1 none 4 0 0 0 = .ok m
      ∧ (([] : List String) = [] → m.success_rate_percent = 0
          ∧ m.failure_rate_percent = 0)
      ∧ ((1 : ℚ) ≤ 0 → m.urls_per_second = 0 ∧ m.throughput_mbps = 0
          ∧ m.wall_clock_efficiency = 0)
      ∧ (([] : List Comprehensive.Outcome).filter
            (fun r => decide (r.status = Status.success)) = []
          → m.avg_response_time_seconds = 0
            ∧ m.memory_efficiency_mb_per_url = 0
            ∧ m.network_efficiency_kb_per_url = 0
            ∧ m.cpu_seconds_per_url = 0))
    ∧ (∃ r : AsyncVsSync.Compiled,
      AsyncVsSync.benchmark (fun _ _ => ⟨1/50, 1/2, 1/50, 20000⟩) []
          ((2 : ℕ) : ℤ) 1 none = .ok r
      ∧ r.success_rate = 0 ∧ r.urls_per_second = 0) :=
  aggregation_division_guards [] 1 none "m" [] [] 1 none 4 0 0 0
    (fun _ _ => ⟨1/50, 1/2, 1/50, 20000⟩) 2 1 none (by norm_num) (by norm_num)

/-- Claim C10 counterexample: in the comprehensive benchmark a failed record
does carry a `response_size` (the value 0), so it is not true that failed
records carry none — refuted on a one-url batch whose draw rolls a failure. -/
theorem comprehensive_failed_carries_size :
    ¬ (∀ r ∈ Comprehensive.worker_batch (fun _ => ⟨1/10, 1, 1/20, 20000, 10⟩)
        ["u"] 0 false, r.status = Status.failed → r.response_size = none) := by
  intro h
  have hx := h ({ Comprehensive.scrape_url "u" false ⟨1/10, 1, 1/20, 20000, 10⟩
      with worker_id := some 0 } : Comprehensive.Outcome)
    (List.mem_cons_self _ _)
  have hst : ({ Comprehensive.scrape_url "u" false ⟨1/10, 1, 1/20, 20000, 10⟩
      with worker_id := some 0 } : Comprehensive.Outcome).status
      = Status.failed := by
    simp [Comprehensive.scrape_url, show (1 : ℚ) > 88/100 by norm_num]
  have hsz := hx hst
  simp [Comprehensive.scrape_url, show (1 : ℚ) > 88/100 by norm_num] at hsz

/-- Claim C10 (amended): a worker batch returns exactly one outcome per input
URL, in input order, each carrying the originating URL, the given worker id,
and a status that is exactly success or failed; in the async-vs-sync scraper a
record carries a `response_size` exactly when it succeeded (failed records
carry none), while in the comprehensive scraper successful records carry a
`response_size` and a `products_found`, and failed records carry
`response_size` 0 together with the failure reason, rather than no
`response_size`. -/
theorem worker_batch_shape (env : ℕ → AsyncVsSync.Draw)
    (cenv : ℕ → Comprehensive.Draw) (urls : List String) (wid : ℤ)
    (use_premium : Bool) :
    ((AsyncVsSync.worker_batch env urls wid).map (·.url) = urls)
    ∧ (∀ r ∈ AsyncVsSync.worker_batch env urls wid,
        r.worker_id = some wid
        ∧ (r.status = Status.success ∨ r.status = Status.failed)
        ∧ (r.status = Status.success ↔ r.response_size.isSome))
    ∧ ((Comprehensive.worker_batch cenv urls wid use_premium).map (·.url) = urls)
    ∧ (∀ r ∈ Comprehensive.worker_batch cenv urls wid use_premium,
        r.worker_id = some wid
        ∧ (r.status = Status.success ∨ r.status = Status.failed)
        ∧ (r.status = Status.success
            → r.response_size.isSome ∧ r.products_found.isSome)
        ∧ (r.status = Status.failed
            → r.response_size = some 0
              ∧ r.reason = some "rate_limit_simulation")) := by
  refine ⟨?_, ?_, ?_, ?_⟩
  · rw [AsyncVsSync.worker_batch, List.map_map]
    refine Eq.trans (List.map_congr_left ?_) (List.enum_map_snd urls)
    intro p _
    show ({ AsyncVsSync.scrape_url p.2 (env p.1) with
      worker_id := some wid } : AsyncVsSync.Outcome).url = p.2
    rw [AsyncVsSync.scrape_url]
    split <;> rfl
  · intro r hr
    obtain ⟨p, _, rfl⟩ := List.mem_map.mp hr
    by_cases hroll : (env p.1).roll > 9/10 <;>
      simp [AsyncVsSync.scrape_url, hroll]
  · rw [Comprehensive.worker_batch, List.map_map]
    refine Eq.trans (List.map_congr_left ?_) (List.enum_map_snd urls)
    intro p _
    show ({ Comprehensive.scrape_url p.2 use_premium (cenv p.1) with
      worker_id := some wid } : Comprehensive.Outcome).url = p.2
    by_cases hroll : (cenv p.1).roll
        > (if use_premium then (95 : ℚ)/100 else 88/100) <;>
      simp [Comprehensive.scrape_url, hroll]
  · intro r hr
    obtain ⟨p, _, rfl⟩ := List.mem_map.mp hr
    by_cases hroll : (cenv p.1).roll
        > (if use_premium then (95 : ℚ)/100 else 88/100) <;>
      simp [Comprehensive.scrape_url, hroll]

/-- Concrete instance of claim C10 (amended): a two-url batch per scraper, the
per-record facts checked on the first record of each batch. -/
theorem worker_batch_shape_witness :
    ((AsyncVsSync.worker_batch (fun _ => ⟨1/50, 1/2, 1/50, 20000⟩)
        ["a", "b"] 3).map (·.url) = ["a", "b"])
    ∧ ((Comprehensive.worker_batch (fun _ => ⟨1/10, 1, 1/20, 20000, 10⟩)
        ["a", "b"] 3 false).map (·.url) = ["a", "b"])
    ∧ ({ AsyncVsSync.scrape_url "a" ⟨1/50, 1/2, 1/50, 20000⟩
        with worker_id := some 3 } : AsyncVsSync.Outcome).worker_id = some 3
    ∧ (({ Comprehensive.scrape_url "a" false ⟨1/10, 1, 1/20, 20000, 10⟩
          with worker_id := some 3 } : Comprehensive.Outcome).status
            = Status.failed
        → ({ Comprehensive.scrape_url "a" false ⟨1/10, 1, 1/20, 20000, 10⟩
            with worker_id := some 3 } : Comprehensive.Outcome).response_size
              = some 0
          ∧ ({ Comprehensive.scrape_url "a" false ⟨1/10, 1, 1/20, 20000, 10⟩
            with worker_id := some 3 } : Comprehensive.Outcome).reason
              = some "rate_limit_simulation") := by
  obtain ⟨h1, h2, h3, h4⟩ := worker_batch_shape
    (fun _ => ⟨1/50, 1/2, 1/50, 20000⟩) (fun _ => ⟨1/10, 1, 1/20, 20000, 10⟩)
    ["a", "b"] 3 false
  exact ⟨h1, h3, (h2 _ (List.mem_cons_self _ _)).1,
    (h4 _ (List.mem_cons_self _ _)).2.2.2⟩
